import Mathlib

/-!
Verification of the `binaryen-rs` Rust crate (arena-based wasm IR builder with
a Relooper CFG-structuring subsystem) against its natural-language
specification.

The development is a shallow embedding of the crate's core:

* `World`, `RawExpr`, `ExprNode`, `Expr` — the arena ownership model of
  `src/src/lib.rs` (`Module`, `InnerModule`, `Expr`).  A raw Binaryen
  expression pointer is modelled as a pair (owning arena identity, node
  index): distinct modules own disjoint C++ arenas, so a raw pointer
  determines the arena it points into.
* `Relooper`, `PlainBlock`, `SwitchBlock` — `src/src/relooper.rs`.  The
  Boolean `dbg` parameter threaded through the Relooper entry points models
  the Rust `cfg(debug_assertions)` build flag: `debug_assert!` panics when
  the flag is on and is compiled out when it is off.  A Rust panic is
  modelled as `none`.
* An action-trace model of the global codegen-configuration lock
  (`set_global_codegen_config`, `Module::optimize`).
* A reference-count trace model of `Rc<InnerModule>` lifetime.
* Models of `Module::read` (`src/src/lib.rs`) and of
  `translate_to_fuzz` / `translate_to_fuzz_mvp` (`src/src/tools.rs`).
-/

set_option autoImplicit false

namespace Binaryen

/-! ### Arena world model (src/src/lib.rs) -/

/-- Kind of an expression node; only the structure relevant to ownership is
kept (which module allocated the node and which raw children it points to). -/
inductive NodeKind : Type
  | const (lit : Int)
  | binaryNode (op : Nat)
  | nop
  | blockNode
  deriving DecidableEq, Repr

/-- A raw `BinaryenExpressionRef`: the identity of the arena (module) the
node was allocated in, and its index inside that arena. -/
structure RawExpr : Type where
  owner : Nat
  idx : Nat
  deriving DecidableEq, Repr

/-- A node allocated inside some arena: its kind and its raw children. -/
structure ExprNode : Type where
  kind : NodeKind
  children : List RawExpr
  deriving DecidableEq, Repr

/-- The world of all live modules: arena `m` is `arenas[m]`, the list of
nodes allocated by module `m` in allocation order. -/
structure World : Type where
  arenas : List (List ExprNode)
  deriving DecidableEq, Repr

/-- The `Expr` struct of `src/src/lib.rs` (lines 1220-1223): a counted
reference to the owning `InnerModule` (modelled by the module's identity)
paired with the raw node pointer.  `Expr::from_raw` (lines 1226-1231) builds
it without any check that `raw` actually lies in that module's arena. -/
structure Expr : Type where
  module_ref : Nat
  raw : RawExpr
  deriving DecidableEq, Repr

/-- Look up the node a raw reference points at. -/
def World.nodeAt (w : World) (r : RawExpr) : Option ExprNode :=
  (w.arenas.get? r.owner).bind fun arena => arena.get? r.idx

/-- Allocate a node in arena `m` and return the raw reference to it; this is
what each `ffi::Binaryen*` construction call does on the C++ side. -/
def World.alloc (w : World) (m : Nat) (n : ExprNode) : World × RawExpr :=
  let arena := (w.arenas.get? m).getD []
  (⟨w.arenas.set m (arena ++ [n])⟩, ⟨m, arena.length⟩)

/-- `Module::new` (src/src/lib.rs lines 82-87): create a fresh empty module;
its identity is the next free arena slot. -/
def Module.new (w : World) : World × Nat :=
  (⟨w.arenas ++ [[]]⟩, w.arenas.length)

/-- `Expr::from_raw(self, raw)` (src/src/lib.rs lines 1226-1231): pair the
module's `Rc<InnerModule>` with the raw pointer, with no ownership check. -/
def Expr.from_raw (m : Nat) (raw : RawExpr) : Expr :=
  ⟨m, raw⟩

/-- `Module::const_` (src/src/lib.rs lines 539-542): allocate a constant node
in `self`'s arena and wrap the raw result with `Expr::from_raw`. -/
def Module.const_ (w : World) (m : Nat) (lit : Int) : World × Expr :=
  let res := w.alloc m ⟨NodeKind.const lit, []⟩
  (res.1, Expr.from_raw m res.2)

/-- `Module::nop` (src/src/lib.rs lines 754-757). -/
def Module.nop (w : World) (m : Nat) : World × Expr :=
  let res := w.alloc m ⟨NodeKind.nop, []⟩
  (res.1, Expr.from_raw m res.2)

/-- `Module::binary` (src/src/lib.rs lines 711-716): it moves `lhs` and `rhs`
into raw pointers, calls `ffi::BinaryenBinary(self.inner.raw, op, lhs, rhs)`
— which allocates the new node in `self`'s arena with exactly those two raw
children — and wraps the result with `Expr::from_raw(self, ·)`.  Faithful to
the source, no co-ownership check of any kind is performed on the operands. -/
def Module.binary (w : World) (m : Nat) (op : Nat) (lhs rhs : Expr) : World × Expr :=
  let res := w.alloc m ⟨NodeKind.binaryNode op, [lhs.raw, rhs.raw]⟩
  (res.1, Expr.from_raw m res.2)

end Binaryen

namespace Binaryen

/-! ### C1 — cross-module operands in Module construction calls -/

/-- Allocation followed by lookup at the returned raw reference finds the
allocated node. -/
theorem World.alloc_nodeAt (w : World) (m : Nat) (n : ExprNode)
    (hm : m < w.arenas.length) :
    (w.alloc m n).1.nodeAt (w.alloc m n).2 = some n := by
  simp [World.alloc, World.nodeAt, List.get?_eq_getElem?, List.getElem?_set_self, hm,
    List.getElem?_concat_length]

/-- C1, amended: `Module::binary` performs no co-ownership check.  Called on
module `m` with a left operand whose node lives in a different arena, it
silently succeeds: the new node is allocated in `m`'s arena with the foreign
raw reference as its first child, and the returned handle claims ownership by
`m` while its child belongs to a different arena. -/
theorem binary_cross_module_silently_links (w : World) (m op : Nat) (lhs rhs : Expr)
    (hm : m < w.arenas.length) (hx : lhs.raw.owner ≠ m) :
    ((Module.binary w m op lhs rhs).1).nodeAt ((Module.binary w m op lhs rhs).2).raw
        = some ⟨NodeKind.binaryNode op, [lhs.raw, rhs.raw]⟩ ∧
      ((Module.binary w m op lhs rhs).2).module_ref = m ∧
      lhs.raw.owner ≠ ((Module.binary w m op lhs rhs).2).raw.owner := by
  refine ⟨?_, rfl, ?_⟩
  · exact World.alloc_nodeAt w m ⟨NodeKind.binaryNode op, [lhs.raw, rhs.raw]⟩ hm
  · simpa [Module.binary, World.alloc] using hx

/-- Witness for the amended C1 theorem at a concrete input: two live arenas,
module 1 consumes a handle whose node belongs to arena 0. -/
theorem binary_cross_module_silently_links_witness :
    ((Module.binary ⟨[[], []]⟩ 1 0 ⟨0, ⟨0, 0⟩⟩ ⟨1, ⟨1, 0⟩⟩).1).nodeAt
        ((Module.binary ⟨[[], []]⟩ 1 0 ⟨0, ⟨0, 0⟩⟩ ⟨1, ⟨1, 0⟩⟩).2).raw
        = some ⟨NodeKind.binaryNode 0, [⟨0, 0⟩, ⟨1, 0⟩]⟩ ∧
      ((Module.binary ⟨[[], []]⟩ 1 0 ⟨0, ⟨0, 0⟩⟩ ⟨1, ⟨1, 0⟩⟩).2).module_ref = 1 ∧
      (RawExpr.mk 0 0).owner ≠ ((Module.binary ⟨[[], []]⟩ 1 0 ⟨0, ⟨0, 0⟩⟩ ⟨1, ⟨1, 0⟩⟩).2).raw.owner :=
  binary_cross_module_silently_links ⟨[[], []]⟩ 1 0 ⟨0, ⟨0, 0⟩⟩ ⟨1, ⟨1, 0⟩⟩
    (by decide) (by decide)

/-- C1 counterexample: the claimed behaviour — that `moduleB.binary(op, x, y)`
with `x` created by module A fails deterministically and never produces a node
with a cross-arena child — is false.  Concretely: create modules A (= 0) and
B (= 1), build `x = A.const_(1)` and `y = B.const_(2)`, then `B.binary(0, x,
y)` succeeds and yields a node in B's arena whose first child is `x`'s node,
which belongs to arena A ≠ B. -/
theorem binary_cross_module_counterexample :
    (let p1 := Module.new ⟨[]⟩
     let p2 := Module.new p1.1
     let px := Module.const_ p2.1 p1.2 1
     let py := Module.const_ px.1 p2.2 2
     let pz := Module.binary py.1 p2.2 0 px.2 py.2
     pz.2.module_ref = p2.2 ∧
       pz.1.nodeAt pz.2.raw = some ⟨NodeKind.binaryNode 0, [px.2.raw, py.2.raw]⟩ ∧
       px.2.raw.owner = p1.2 ∧ p1.2 ≠ p2.2) := by
  decide

end Binaryen

namespace Binaryen

/-! ### Relooper model (src/src/relooper.rs)

The `dbg` Boolean passed to the entry points models the Rust build flag
`cfg(debug_assertions)`: `debug_assert!(c)` panics when the flag is on and
`c` is false, and is compiled out entirely when the flag is off.  A panic is
modelled as `none`.  Raw `RelooperBlockRef` pointers are modelled as globally
fresh natural numbers handed out by an allocation counter `ctr`, since the
external `RelooperAddBlock` returns a distinct pointer for every call. -/

/-- The `Relooper` struct (src/src/relooper.rs lines 62-66): the raw relooper
pointer, the grown `Vec<RelooperBlockRef>` of raw block pointers, and the
`Rc<InnerModule>` it is bound to (modelled by the module identity). -/
structure Relooper : Type where
  raw : Nat
  blocks : List Nat
  module_ref : Nat
  deriving DecidableEq, Repr

/-- `PlainBlock(usize)` (src/src/relooper.rs line 83): a bare index, `Copy`,
carrying no reference to the Relooper that created it. -/
structure PlainBlock : Type where
  id : Nat
  deriving DecidableEq, Repr

/-- `SwitchBlock(usize)` (src/src/relooper.rs line 93). -/
structure SwitchBlock : Type where
  id : Nat
  deriving DecidableEq, Repr

/-- A value of the `Block` trait (src/src/relooper.rs lines 77-79): either of
the two block kinds, exposing only `get_id`. -/
inductive AnyBlock : Type
  | plain (b : PlainBlock)
  | switchB (b : SwitchBlock)
  deriving DecidableEq, Repr

/-- `Block::get_id` (src/src/relooper.rs lines 85-89 and 95-99). -/
def AnyBlock.get_id : AnyBlock → Nat
  | .plain b => b.id
  | .switchB b => b.id

/-- `Relooper::new` (src/src/relooper.rs lines 102-108): fresh raw pointer,
empty block table, bound to the given module. -/
def Relooper.new (rawRelooper : Nat) (module_ref : Nat) : Relooper :=
  ⟨rawRelooper, [], module_ref⟩

/-- `Relooper::is_expr_from_same_module` (src/src/relooper.rs lines 225-227):
`Rc::ptr_eq(&self.module_ref, &expr._module_ref)`. -/
def Relooper.is_expr_from_same_module (r : Relooper) (e : Expr) : Bool :=
  r.module_ref == e.module_ref

/-- `Relooper::add_raw_block` (src/src/relooper.rs lines 215-219): the new
block's index is the current length of the table; the raw pointer is pushed
at the back. -/
def Relooper.add_raw_block (r : Relooper) (raw_block : Nat) : Relooper × Nat :=
  let index := r.blocks.length
  ({ r with blocks := r.blocks ++ [raw_block] }, index)

/-- `Relooper::get_raw_block` (src/src/relooper.rs lines 221-223):
`self.blocks[block.get_id()]` — Rust `Vec` indexing, which panics (`none`)
exactly when the index is out of bounds and otherwise silently returns the
entry. -/
def Relooper.get_raw_block (r : Relooper) (b : AnyBlock) : Option Nat :=
  r.blocks.get? b.get_id

/-- `Relooper::add_block` (src/src/relooper.rs lines 116-120):
`debug_assert!(self.is_expr_from_same_module(&code))`, then the external
`RelooperAddBlock` allocates a fresh raw block which is recorded with
`add_raw_block`.  Returns the updated relooper, the `PlainBlock`, and the
advanced allocation counter. -/
def Relooper.add_block (dbg : Bool) (ctr : Nat) (r : Relooper) (code : Expr) :
    Option (Relooper × PlainBlock × Nat) :=
  if dbg && !(r.is_expr_from_same_module code) then none
  else
    let res := r.add_raw_block ctr
    some (res.1, ⟨res.2⟩, ctr + 1)

/-- `Relooper::add_block_with_switch` (src/src/relooper.rs lines 125-132):
two debug assertions (body and switch condition), then a fresh raw block. -/
def Relooper.add_block_with_switch (dbg : Bool) (ctr : Nat) (r : Relooper)
    (code condition : Expr) : Option (Relooper × SwitchBlock × Nat) :=
  if dbg && !(r.is_expr_from_same_module code) then none
  else if dbg && !(r.is_expr_from_same_module condition) then none
  else
    let res := r.add_raw_block ctr
    some (res.1, ⟨res.2⟩, ctr + 1)

/-- A branch recorded on the external (C++) side of the Relooper: source and
target raw block pointers and whether the branch carries a condition. -/
structure Edge : Type where
  fromRaw : Nat
  toRaw : Nat
  hasCondition : Bool
  deriving DecidableEq, Repr

/-- Modelled from the spec: the external `RelooperAddBranch` (its C++
implementation is not part of this repository; only its declaration in
`binaryen-sys` is).  Per the spec's §4.3 error conditions, supplying more
than one unconditional edge leaving a single plain block is rejected as a
fatal error (`none`); otherwise the edge is appended. -/
def RelooperAddBranchExternal (edges : List Edge) (fromRaw toRaw : Nat)
    (hasCondition : Bool) : Option (List Edge) :=
  if !hasCondition && edges.any (fun e => e.fromRaw == fromRaw && !e.hasCondition) then
    none
  else
    some (edges ++ [⟨fromRaw, toRaw, hasCondition⟩])

/-- `Relooper::add_branch` (src/src/relooper.rs lines 140-165): debug
assertions on the optional `condition` and `code` expressions, then
`get_raw_block` on both endpoints (panicking on out-of-range ids), then the
external `RelooperAddBranch`. -/
def Relooper.add_branch (dbg : Bool) (r : Relooper) (edges : List Edge)
    (fromB : PlainBlock) (toB : AnyBlock) (condition code : Option Expr) :
    Option (List Edge) :=
  if dbg && !(condition.all fun e => r.is_expr_from_same_module e) then none
  else if dbg && !(code.all fun e => r.is_expr_from_same_module e) then none
  else
    match r.get_raw_block (.plain fromB), r.get_raw_block toB with
    | some from_block, some to_block =>
        RelooperAddBranchExternal edges from_block to_block condition.isSome
    | _, _ => none

/-- `Relooper::add_branch_for_switch` (src/src/relooper.rs lines 170-194):
a debug assertion on the optional `code`, then `get_raw_block` on both
endpoints, then the external `RelooperAddBranchForSwitch` (which, per the
spec, never carries a plain-block condition: it is recorded as a conditional
dispatch edge, never an unconditional plain edge). -/
def Relooper.add_branch_for_switch (dbg : Bool) (r : Relooper) (edges : List Edge)
    (fromB : SwitchBlock) (toB : AnyBlock) (indices : List Nat) (code : Option Expr) :
    Option (List Edge) :=
  if dbg && !(code.all fun e => r.is_expr_from_same_module e) then none
  else
    match r.get_raw_block (.switchB fromB), r.get_raw_block toB with
    | some from_block, some to_block =>
        some (edges ++ [⟨from_block, to_block, true⟩])
    | _, _ => none

end Binaryen

namespace Binaryen

/-! ### C3 — foreign expressions at Relooper entry points -/

/-- C3, amended: with debug assertions enabled (a debug build, `dbg = true`),
passing an expression bound to a different module to `add_block`,
`add_block_with_switch` (as body or as switch condition), or as the
`condition` or transfer `code` of `add_branch` / `add_branch_for_switch`
panics via `debug_assert!` (modelled as `none`).  (With debug assertions
disabled the checks are compiled out and the expression is accepted; see the
counterexample.) -/
theorem relooper_foreign_expr_debug_panics (ctr : Nat) (r : Relooper) (e other : Expr)
    (edges : List Edge) (fromP : PlainBlock) (fromS : SwitchBlock) (toB : AnyBlock)
    (cond code : Option Expr) (indices : List Nat)
    (h : r.is_expr_from_same_module e = false) :
    Relooper.add_block true ctr r e = none ∧
      Relooper.add_block_with_switch true ctr r e other = none ∧
      Relooper.add_block_with_switch true ctr r other e = none ∧
      Relooper.add_branch true r edges fromP toB (some e) code = none ∧
      Relooper.add_branch true r edges fromP toB cond (some e) = none ∧
      Relooper.add_branch_for_switch true r edges fromS toB indices (some e) = none := by
  refine ⟨?_, ?_, ?_, ?_, ?_, ?_⟩
  · simp [Relooper.add_block, h]
  · simp [Relooper.add_block_with_switch, h]
  · by_cases hb : r.is_expr_from_same_module other = true <;>
      simp [Relooper.add_block_with_switch, h, hb] at *
  · simp [Relooper.add_branch, h]
  · by_cases hb : (cond.all fun x => r.is_expr_from_same_module x) = true <;>
      simp [Relooper.add_branch, h, hb] at *
  · simp [Relooper.add_branch_for_switch, h]

/-- Witness for the amended C3 theorem: a relooper bound to module 0 and an
expression bound to module 1. -/
theorem relooper_foreign_expr_debug_panics_witness :
    Relooper.add_block true 0 (Relooper.new 0 0) ⟨1, ⟨1, 0⟩⟩ = none ∧
      Relooper.add_block_with_switch true 0 (Relooper.new 0 0) ⟨1, ⟨1, 0⟩⟩ ⟨0, ⟨0, 0⟩⟩ = none ∧
      Relooper.add_block_with_switch true 0 (Relooper.new 0 0) ⟨0, ⟨0, 0⟩⟩ ⟨1, ⟨1, 0⟩⟩ = none ∧
      Relooper.add_branch true (Relooper.new 0 0) [] ⟨0⟩ (.plain ⟨0⟩) (some ⟨1, ⟨1, 0⟩⟩) none = none ∧
      Relooper.add_branch true (Relooper.new 0 0) [] ⟨0⟩ (.plain ⟨0⟩) none (some ⟨1, ⟨1, 0⟩⟩) = none ∧
      Relooper.add_branch_for_switch true (Relooper.new 0 0) [] ⟨0⟩ (.plain ⟨0⟩) [0]
        (some ⟨1, ⟨1, 0⟩⟩) = none :=
  relooper_foreign_expr_debug_panics 0 (Relooper.new 0 0) ⟨1, ⟨1, 0⟩⟩ ⟨0, ⟨0, 0⟩⟩ [] ⟨0⟩ ⟨0⟩
    (.plain ⟨0⟩) none none [0] (by decide)

/-- C3 counterexample: the claim as stated — a foreign expression is always
rejected by a runtime assertion rather than accepted — is false, because
`debug_assert!` is compiled out in release builds.  Concretely: with debug
assertions disabled (`dbg = false`), a relooper bound to module 0 accepts an
expression bound to module 1 via `add_block`. -/
theorem relooper_foreign_expr_release_counterexample :
    (Relooper.new 0 0).is_expr_from_same_module ⟨1, ⟨1, 0⟩⟩ = false ∧
      Relooper.add_block false 0 (Relooper.new 0 0) ⟨1, ⟨1, 0⟩⟩
        = some (⟨0, [0], 0⟩, ⟨0⟩, 1) := by
  decide

/-! ### C4 — block identities from a different Relooper -/

/-- C4, amended: `get_raw_block` treats a block identity as a bare index into
`self.blocks`.  It panics (Rust `Vec` index out of bounds, modelled `none`)
exactly when the index is at or past the table length; every in-range index —
a block identity carries no link to the Relooper that created it — silently
resolves to this Relooper's raw block at that index. -/
theorem get_raw_block_resolves_by_index (r : Relooper) (b : AnyBlock) :
    (r.get_raw_block b = none ↔ r.blocks.length ≤ b.get_id) ∧
      (∀ h : b.get_id < r.blocks.length,
        r.get_raw_block b = some (r.blocks.get ⟨b.get_id, h⟩)) := by
  constructor
  · simp [Relooper.get_raw_block, List.get?_eq_getElem?, List.getElem?_eq_none_iff]
  · intro h
    simp [Relooper.get_raw_block, List.get?_eq_getElem?, List.getElem?_eq_getElem h]

/-- Witness for the amended C4 theorem: a relooper with a two-entry block
table, probed with identity 1 (in range, resolves) and via the `none` case
with identity 5 (out of range, panics). -/
theorem get_raw_block_resolves_by_index_witness :
    (Relooper.get_raw_block ⟨0, [10, 11], 0⟩ (.plain ⟨5⟩) = none ↔
        (Relooper.mk 0 [10, 11] 0).blocks.length ≤ (AnyBlock.plain ⟨5⟩).get_id) ∧
      Relooper.get_raw_block ⟨0, [10, 11], 0⟩ (.plain ⟨1⟩) = some 11 :=
  ⟨(get_raw_block_resolves_by_index ⟨0, [10, 11], 0⟩ (.plain ⟨5⟩)).1,
   (get_raw_block_resolves_by_index ⟨0, [10, 11], 0⟩ (.plain ⟨1⟩)).2 (by decide)⟩

/-- C4 counterexample: the claim — every use of a block identity not created
by this Relooper is rejected, never silently resolved — is false.  Build
relooper R1 (bound to module 0, raw block 0 for its block 0) and relooper R2
(bound to module 1, raw block 1 for its block 0).  The `PlainBlock` value R2
hands back for its block is `⟨0⟩`; used on R1, `get_raw_block` silently
resolves it to R1's raw block 0 (R2 maps the same identity to raw block 1),
and a full `add_branch` on R1 with it succeeds instead of being rejected. -/
theorem foreign_block_id_counterexample :
    Relooper.add_block true 0 (Relooper.new 0 0) ⟨0, ⟨0, 0⟩⟩
        = some (⟨0, [0], 0⟩, ⟨0⟩, 1) ∧
      Relooper.add_block true 1 (Relooper.new 1 1) ⟨1, ⟨1, 0⟩⟩
        = some (⟨1, [1], 1⟩, ⟨0⟩, 2) ∧
      Relooper.get_raw_block ⟨1, [1], 1⟩ (.plain ⟨0⟩) = some 1 ∧
      Relooper.get_raw_block ⟨0, [0], 0⟩ (.plain ⟨0⟩) = some 0 ∧
      Relooper.add_branch true ⟨0, [0], 0⟩ [] ⟨0⟩ (.plain ⟨0⟩) none none
        = some [⟨0, 0, false⟩] ∧
      (1 : Nat) ≠ 0 := by
  decide

/-! ### C5 — at most one unconditional edge per plain block -/

/-- C5: adding a second unconditional branch (`condition = None`) leaving a
plain block that already has an unconditional outgoing edge is rejected
(fatal, modelled `none`), never silently resolved to one of the two edges. -/
theorem second_unconditional_branch_rejected (dbg : Bool) (r : Relooper)
    (edges : List Edge) (fromB : PlainBlock) (toB : AnyBlock) (code : Option Expr)
    (fromRaw : Nat)
    (hfrom : r.get_raw_block (.plain fromB) = some fromRaw)
    (hdup : (edges.any fun e => e.fromRaw == fromRaw && !e.hasCondition) = true) :
    Relooper.add_branch dbg r edges fromB toB none code = none := by
  by_cases hc : (dbg && !(code.all fun e => r.is_expr_from_same_module e)) = true
  · simp [Relooper.add_branch, hc]
  · cases hto : r.get_raw_block toB <;>
      simp [Relooper.add_branch, hc, hfrom, hto, RelooperAddBranchExternal, hdup]

/-- Witness for C5: a relooper with blocks 0 and 1 (raw 5 and 6) and an
existing unconditional edge 5 → 6; a second unconditional branch out of block
0 is rejected. -/
theorem second_unconditional_branch_rejected_witness :
    Relooper.add_branch true ⟨0, [5, 6], 0⟩ [⟨5, 6, false⟩] ⟨0⟩ (.plain ⟨1⟩) none none
      = none :=
  second_unconditional_branch_rejected true ⟨0, [5, 6], 0⟩ [⟨5, 6, false⟩] ⟨0⟩
    (.plain ⟨1⟩) none 5 (by decide) (by decide)

end Binaryen

namespace Binaryen

/-! ### C6 — render consumes the Relooper

`Relooper::render` (src/src/relooper.rs lines 204-213) takes `self` by value:
after the call the Rust relooper value no longer exists, so no further method
can be invoked on it — use after render is a compile-time impossibility.  The
lifecycle model below makes the moved-out state explicit as `rendered`; an
attempted operation on it is `none` (statically impossible / rejected). -/

/-- Lifecycle state of one Relooper instance: still building (holding its
block table, externally recorded edges and the raw-block allocation counter),
or already consumed by `render`. -/
inductive RelooperLifecycle : Type
  | building (r : Relooper) (edges : List Edge) (ctr : Nat)
  | rendered
  deriving DecidableEq, Repr

/-- The operations of the public Relooper API. -/
inductive RelooperOp : Type
  | addBlockOp (code : Expr)
  | addBlockWithSwitchOp (code condition : Expr)
  | addBranchOp (fromB : PlainBlock) (toB : AnyBlock) (condition code : Option Expr)
  | addBranchForSwitchOp (fromB : SwitchBlock) (toB : AnyBlock) (indices : List Nat)
      (code : Option Expr)
  | renderOp (entry : AnyBlock) (label_helper : Nat)
  deriving DecidableEq, Repr

/-- One API call on a relooper lifecycle state.  In the `building` state each
call behaves as the corresponding source function (`none` = panic);
`renderOp` resolves the entry block (panicking on an out-of-range identity,
src/src/relooper.rs line 205) and consumes the instance.  In the `rendered`
state the value has been moved out of the caller's hands, so every call is
impossible (`none`). -/
def lcStep (dbg : Bool) (op : RelooperOp) : RelooperLifecycle → Option RelooperLifecycle
  | .building r edges ctr =>
    match op with
    | .addBlockOp code =>
        (Relooper.add_block dbg ctr r code).map fun res =>
          .building res.1 edges res.2.2
    | .addBlockWithSwitchOp code condition =>
        (Relooper.add_block_with_switch dbg ctr r code condition).map fun res =>
          .building res.1 edges res.2.2
    | .addBranchOp fromB toB condition code =>
        (Relooper.add_branch dbg r edges fromB toB condition code).map fun es =>
          .building r es ctr
    | .addBranchForSwitchOp fromB toB indices code =>
        (Relooper.add_branch_for_switch dbg r edges fromB toB indices code).map fun es =>
          .building r es ctr
    | .renderOp entry _ =>
        (r.get_raw_block entry).map fun _ => .rendered
  | .rendered => none

/-- C6: `render` consumes the Relooper.  (a) No operation whatsoever applies
to a rendered instance — in particular no block or edge can be added and no
block identity can be resolved to stale data — so there is no transition out
of `rendered`, let alone back to `building`.  (b) A successful `render` from
the `building` state always lands in the terminal `rendered` state. -/
theorem render_consumes_relooper (dbg : Bool) (op : RelooperOp) :
    lcStep dbg op RelooperLifecycle.rendered = none ∧
      (∀ (r : Relooper) (edges : List Edge) (ctr : Nat) (entry : AnyBlock)
          (lh : Nat) (s : RelooperLifecycle),
        lcStep dbg (.renderOp entry lh) (.building r edges ctr) = some s →
        s = RelooperLifecycle.rendered) := by
  constructor
  · rfl
  · intro r edges ctr entry lh s hs
    cases hb : r.get_raw_block entry <;> simp [lcStep, hb] at hs
    exact hs.symm

/-- Witness for C6 at concrete inputs: an `add_block` call on a rendered
instance is impossible, and a concrete successful render of a one-block
relooper lands in `rendered`. -/
theorem render_consumes_relooper_witness :
    lcStep true (RelooperOp.addBlockOp ⟨0, ⟨0, 0⟩⟩) RelooperLifecycle.rendered = none ∧
      RelooperLifecycle.rendered = RelooperLifecycle.rendered :=
  ⟨(render_consumes_relooper true (RelooperOp.addBlockOp ⟨0, ⟨0, 0⟩⟩)).1,
   (render_consumes_relooper true (RelooperOp.renderOp (.plain ⟨0⟩) 0)).2
     ⟨0, [7], 0⟩ [] 1 (.plain ⟨0⟩) 0 RelooperLifecycle.rendered (by decide)⟩

end Binaryen

namespace Binaryen

/-! ### C8 — block identity is the insertion index -/

/-- One block-creation call, of either kind. -/
inductive CreateOp : Type
  | plainOp (code : Expr)
  | switchOp (code condition : Expr)
  deriving DecidableEq, Repr

/-- Whether every expression of the creation call is bound to module `m`, so
that the debug assertions of `add_block` / `add_block_with_switch` pass. -/
def CreateOp.sameModuleId (m : Nat) : CreateOp → Bool
  | .plainOp code => m == code.module_ref
  | .switchOp code condition => (m == code.module_ref) && (m == condition.module_ref)

/-- Run a sequence of interleaved `add_block` / `add_block_with_switch` calls
on a relooper, collecting the identity each created block receives.  `none`
propagates a panic of any call. -/
def runCreations (dbg : Bool) (r : Relooper) (ctr : Nat) :
    List CreateOp → Option (Relooper × Nat × List Nat)
  | [] => some (r, ctr, [])
  | .plainOp code :: rest =>
      match Relooper.add_block dbg ctr r code with
      | none => none
      | some res =>
          match runCreations dbg res.1 res.2.2 rest with
          | none => none
          | some fin => some (fin.1, fin.2.1, res.2.1.id :: fin.2.2)
  | .switchOp code condition :: rest =>
      match Relooper.add_block_with_switch dbg ctr r code condition with
      | none => none
      | some res =>
          match runCreations dbg res.1 res.2.2 rest with
          | none => none
          | some fin => some (fin.1, fin.2.1, res.2.1.id :: fin.2.2)

/-- Generalized form of C8: starting from a relooper whose block table
already holds `r.blocks.length` entries, a sequence of creation calls whose
expressions are all bound to the relooper's module succeeds and hands out the
consecutive identities `r.blocks.length, r.blocks.length + 1, ...`. -/
theorem runCreations_ids (dbg : Bool) (ops : List CreateOp) :
    ∀ (r : Relooper) (ctr : Nat),
      (∀ op ∈ ops, op.sameModuleId r.module_ref = true) →
      ∃ rf cf, runCreations dbg r ctr ops
        = some (rf, cf, List.range' r.blocks.length ops.length 1) := by
  induction ops with
  | nil =>
      intro r ctr _
      exact ⟨r, ctr, rfl⟩
  | cons op rest ih =>
      intro r ctr h
      have hop := h op (List.mem_cons_self op rest)
      have hrest := fun o ho => h o (List.mem_cons_of_mem op ho)
      cases op with
      | plainOp code =>
          have hsame : r.is_expr_from_same_module code = true := by
            simpa [CreateOp.sameModuleId, Relooper.is_expr_from_same_module] using hop
          have hstep : Relooper.add_block dbg ctr r code
              = some ((r.add_raw_block ctr).1, ⟨(r.add_raw_block ctr).2⟩, ctr + 1) := by
            simp [Relooper.add_block, hsame]
          have hmod : (r.add_raw_block ctr).1.module_ref = r.module_ref := rfl
          obtain ⟨rf, cf, hrec⟩ := ih (r.add_raw_block ctr).1 (ctr + 1)
            (by intro o ho; rw [hmod]; exact hrest o ho)
          refine ⟨rf, cf, ?_⟩
          have hlen : (r.add_raw_block ctr).1.blocks.length = r.blocks.length + 1 := by
            simp [Relooper.add_raw_block]
          simp only [List.length_cons, List.range'_succ, runCreations, hstep,
            hlen ▸ hrec]
          rfl
      | switchOp code condition =>
          have hsame1 : r.is_expr_from_same_module code = true := by
            have := hop
            simp [CreateOp.sameModuleId, Relooper.is_expr_from_same_module] at this ⊢
            exact this.1
          have hsame2 : r.is_expr_from_same_module condition = true := by
            have := hop
            simp [CreateOp.sameModuleId, Relooper.is_expr_from_same_module] at this ⊢
            exact this.2
          have hstep : Relooper.add_block_with_switch dbg ctr r code condition
              = some ((r.add_raw_block ctr).1, ⟨(r.add_raw_block ctr).2⟩, ctr + 1) := by
            simp [Relooper.add_block_with_switch, hsame1, hsame2]
          have hmod : (r.add_raw_block ctr).1.module_ref = r.module_ref := rfl
          obtain ⟨rf, cf, hrec⟩ := ih (r.add_raw_block ctr).1 (ctr + 1)
            (by intro o ho; rw [hmod]; exact hrest o ho)
          refine ⟨rf, cf, ?_⟩
          have hlen : (r.add_raw_block ctr).1.blocks.length = r.blocks.length + 1 := by
            simp [Relooper.add_raw_block]
          simp only [List.length_cons, List.range'_succ, runCreations, hstep,
            hlen ▸ hrec]
          rfl

/-- C8: on a fresh relooper, for any interleaving of `add_block` and
`add_block_with_switch` calls (whose expressions are bound to the relooper's
module, so the debug assertions pass), the i-th created block — counting from
zero across both kinds — receives identity i: the collected identities are
exactly `0, 1, ..., n-1` in creation order. -/
theorem block_ids_are_insertion_indices (dbg : Bool) (rawRelooper m ctr : Nat)
    (ops : List CreateOp)
    (h : ∀ op ∈ ops, op.sameModuleId m = true) :
    ∃ rf cf, runCreations dbg (Relooper.new rawRelooper m) ctr ops
      = some (rf, cf, List.range ops.length) := by
  obtain ⟨rf, cf, hrun⟩ := runCreations_ids dbg ops (Relooper.new rawRelooper m) ctr h
  refine ⟨rf, cf, ?_⟩
  rw [hrun, List.range_eq_range']
  rfl

/-- Witness for C8: three creations (plain, switch, plain) on a fresh
relooper bound to module 0 receive identities `[0, 1, 2]`. -/
theorem block_ids_are_insertion_indices_witness :
    ∃ rf cf,
      runCreations true (Relooper.new 0 0) 0
        [.plainOp ⟨0, ⟨0, 0⟩⟩, .switchOp ⟨0, ⟨0, 1⟩⟩ ⟨0, ⟨0, 2⟩⟩, .plainOp ⟨0, ⟨0, 3⟩⟩]
        = some (rf, cf, List.range 3) :=
  block_ids_are_insertion_indices true 0 0 0
    [.plainOp ⟨0, ⟨0, 0⟩⟩, .switchOp ⟨0, ⟨0, 1⟩⟩ ⟨0, ⟨0, 2⟩⟩, .plainOp ⟨0, ⟨0, 3⟩⟩]
    (by decide)

end Binaryen

namespace Binaryen

/-! ### C7 — the arena lives as long as any handle

`Module` holds `Rc<InnerModule>` (src/src/lib.rs lines 76-78), every `Expr`
clones that `Rc` (`Expr::from_raw`, lines 1226-1231), and every `Relooper`
clones it too (`Module::relooper`, lines 221-223 of lib.rs).
`InnerModule::drop` (lines 69-73) — the arena disposal — runs exactly when
the `Rc` strong count reaches zero, i.e. when the last of these owners is
dropped.  The model below counts the owners of one `InnerModule` by kind and
replays `Rc` semantics over an event trace. -/

/-- Owner counts of one `InnerModule` plus whether its arena was disposed. -/
structure RcState : Type where
  modules : Nat
  exprs : Nat
  reloopers : Nat
  disposed : Bool
  deriving DecidableEq, Repr

/-- Total `Rc<InnerModule>` strong count. -/
def RcState.total (s : RcState) : Nat :=
  s.modules + s.exprs + s.reloopers

/-- Events affecting the strong count of one `InnerModule`.  Creating an
`Expr` or a `Relooper` requires a live `Module` (`&self` methods); `render`
consumes a Relooper and clones its `Rc` into the produced `Expr`
(src/src/relooper.rs lines 204-213); each drop runs the Rust destructor,
which decrements the strong count and disposes the arena when it reaches
zero. -/
inductive RcEvent : Type
  | newExprHandle
  | newRelooper
  | renderRelooper
  | dropExpr
  | dropRelooper
  | dropModule
  deriving DecidableEq, Repr

/-- `Rc` small-step semantics: `none` models an event that cannot happen in
Rust (using a value that does not exist). -/
def rcStep (s : RcState) : RcEvent → Option RcState
  | .newExprHandle =>
      if s.modules = 0 then none
      else some { s with exprs := s.exprs + 1 }
  | .newRelooper =>
      if s.modules = 0 then none
      else some { s with reloopers := s.reloopers + 1 }
  | .renderRelooper =>
      if s.reloopers = 0 then none
      else some { s with reloopers := s.reloopers - 1, exprs := s.exprs + 1 }
  | .dropExpr =>
      if s.exprs = 0 then none
      else
        let t := { s with exprs := s.exprs - 1 }
        some { t with disposed := t.total = 0 }
  | .dropRelooper =>
      if s.reloopers = 0 then none
      else
        let t := { s with reloopers := s.reloopers - 1 }
        some { t with disposed := t.total = 0 }
  | .dropModule =>
      if s.modules = 0 then none
      else
        let t := { s with modules := s.modules - 1 }
        some { t with disposed := t.total = 0 }

/-- State right after `Module::new`: one `Module` value, no handles, arena
alive. -/
def rcInit : RcState :=
  ⟨1, 0, 0, false⟩

/-- Replay an event trace from a given state. -/
def rcRunFrom (s : RcState) : List RcEvent → Option RcState
  | [] => some s
  | e :: es =>
      match rcStep s e with
      | none => none
      | some s2 => rcRunFrom s2 es

/-- Replay an event trace from `Module::new`. -/
def rcRun (es : List RcEvent) : Option RcState :=
  rcRunFrom rcInit es

/-- One `Rc` step preserves the disposal invariant: the arena has been
disposed exactly when the strong count is zero. -/
theorem rcStep_preserves (s s2 : RcState) (e : RcEvent)
    (hinv : s.disposed = (s.total == 0))
    (h : rcStep s e = some s2) : s2.disposed = (s2.total == 0) := by
  cases e with
  | newExprHandle =>
      by_cases hc : s.modules = 0
      · simp [rcStep, hc] at h
      · simp [rcStep, hc] at h
        subst h
        have hne : s.modules + s.exprs + s.reloopers ≠ 0 := by omega
        have hdf : s.disposed = false := by rw [hinv]; simp [RcState.total, hne]
        have hA : s.modules + (s.exprs + 1) + s.reloopers ≠ 0 := by omega
        simp [RcState.total, hdf, hA]
  | newRelooper =>
      by_cases hc : s.modules = 0
      · simp [rcStep, hc] at h
      · simp [rcStep, hc] at h
        subst h
        have hne : s.modules + s.exprs + s.reloopers ≠ 0 := by omega
        have hdf : s.disposed = false := by rw [hinv]; simp [RcState.total, hne]
        have hA : s.modules + s.exprs + (s.reloopers + 1) ≠ 0 := by omega
        simp [RcState.total, hdf, hA]
  | renderRelooper =>
      by_cases hc : s.reloopers = 0
      · simp [rcStep, hc] at h
      · simp [rcStep, hc] at h
        subst h
        have hne : s.modules + s.exprs + s.reloopers ≠ 0 := by omega
        have hdf : s.disposed = false := by rw [hinv]; simp [RcState.total, hne]
        have hA : s.modules + (s.exprs + 1) + (s.reloopers - 1) ≠ 0 := by omega
        simp [RcState.total, hdf, hA]
  | dropExpr =>
      by_cases hc : s.exprs = 0
      · simp [rcStep, hc] at h
      · simp [rcStep, hc] at h
        subst h
        rw [Bool.eq_iff_iff]
        simp [RcState.total]
  | dropRelooper =>
      by_cases hc : s.reloopers = 0
      · simp [rcStep, hc] at h
      · simp [rcStep, hc] at h
        subst h
        rw [Bool.eq_iff_iff]
        simp [RcState.total]
  | dropModule =>
      by_cases hc : s.modules = 0
      · simp [rcStep, hc] at h
      · simp [rcStep, hc] at h
        subst h
        rw [Bool.eq_iff_iff]
        simp [RcState.total]

/-- The disposal invariant holds after replaying any trace from a state that
satisfies it. -/
theorem rcRunFrom_invariant (es : List RcEvent) :
    ∀ (t s : RcState), t.disposed = (t.total == 0) →
      rcRunFrom t es = some s → s.disposed = (s.total == 0) := by
  induction es with
  | nil =>
      intro t s ht hrun
      simp only [rcRunFrom] at hrun
      injection hrun with h2
      exact h2 ▸ ht
  | cons e rest ih =>
      intro t s ht hrun
      simp only [rcRunFrom] at hrun
      cases hstep : rcStep t e with
      | none => rw [hstep] at hrun; simp at hrun
      | some t2 =>
          rw [hstep] at hrun
          exact ih t2 s (rcStep_preserves t t2 e ht hstep) hrun

/-- The disposal invariant holds in every state reachable from a fresh
module. -/
theorem rcRun_invariant (es : List RcEvent) (s : RcState)
    (h : rcRun es = some s) : s.disposed = (s.total == 0) :=
  rcRunFrom_invariant es rcInit s (by simp [rcInit, RcState.total]) h

/-- C7: in every state reachable by any sequence of handle creations and
drops starting from `Module::new`, the arena is disposed exactly when the
`Module` value, all outstanding `Expr` handles, and all Reloopers bound to it
have been dropped; in particular, while any `Expr` handle exists the arena is
still alive — a handle never outlives its module's arena. -/
theorem arena_disposed_iff_no_owners (es : List RcEvent) (s : RcState)
    (h : rcRun es = some s) :
    (s.disposed = true ↔ s.modules = 0 ∧ s.exprs = 0 ∧ s.reloopers = 0) ∧
      (0 < s.exprs → s.disposed = false) := by
  have hinv := rcRun_invariant es s h
  have hiff : s.disposed = true ↔ s.total = 0 := by
    rw [hinv]
    simp
  constructor
  · rw [hiff]
    unfold RcState.total
    omega
  · intro hx
    rw [hinv]
    have hne : s.total ≠ 0 := by unfold RcState.total; omega
    simp [hne]

/-- Witness for C7 on a concrete trace: create an `Expr`, drop the `Module`,
then drop the `Expr`; only at the very last drop is the arena disposed, and
the final state has no owners at all. -/
theorem arena_disposed_iff_no_owners_witness :
    ((RcState.mk 0 0 0 true).disposed = true ↔
        (RcState.mk 0 0 0 true).modules = 0 ∧ (RcState.mk 0 0 0 true).exprs = 0 ∧
          (RcState.mk 0 0 0 true).reloopers = 0) ∧
      (0 < (RcState.mk 0 0 0 true).exprs → (RcState.mk 0 0 0 true).disposed = false) :=
  arena_disposed_iff_no_owners [.newExprHandle, .dropModule, .dropExpr]
    (RcState.mk 0 0 0 true) (by decide)

end Binaryen

namespace Binaryen

/-! ### C9 — the global codegen-configuration lock

`set_global_codegen_config` (src/src/lib.rs lines 38-63) lazily initializes a
`static` mutex inside `Once::call_once`, then holds its guard while writing
the three global settings.  `Module::optimize` (lines 118-120) calls
`ffi::BinaryenModuleOptimize` directly — it never touches the mutex.  The
model below records each function body as the sequence of primitive actions
it performs, in source order. -/

/-- Primitive actions touching the process-wide codegen state. -/
inductive CGAction : Type
  | onceInitMutex
  | lockAcquire
  | lockRelease
  | ffiSetOptimizeLevel
  | ffiSetShrinkLevel
  | ffiSetDebugInfo
  | ffiModuleOptimize
  deriving DecidableEq, Repr

/-- The action sequence of `set_global_codegen_config` (src/src/lib.rs lines
38-63): one-time mutex initialization, lock, the three FFI setter calls,
unlock (the guard is dropped at the end of the `unsafe` block). -/
def set_global_codegen_config_trace : List CGAction :=
  [.onceInitMutex, .lockAcquire, .ffiSetOptimizeLevel, .ffiSetShrinkLevel,
   .ffiSetDebugInfo, .lockRelease]

/-- The action sequence of `Module::optimize` (src/src/lib.rs lines 118-120):
a single FFI call, nothing else. -/
def optimize_trace : List CGAction :=
  [.ffiModuleOptimize]

/-- Actions that read or write the ambient codegen configuration. -/
def isConfigAccess : CGAction → Bool
  | .ffiSetOptimizeLevel => true
  | .ffiSetShrinkLevel => true
  | .ffiSetDebugInfo => true
  | .ffiModuleOptimize => true
  | _ => false

/-- Whether, starting at lock depth `d`, every configuration access in the
trace happens while the lock is held (depth positive). -/
def configAccessesUnderLock : Nat → List CGAction → Bool
  | _, [] => true
  | d, a :: rest =>
    match a with
    | .lockAcquire => configAccessesUnderLock (d + 1) rest
    | .lockRelease => configAccessesUnderLock (d - 1) rest
    | _ => (!(isConfigAccess a) || decide (0 < d)) && configAccessesUnderLock d rest

/-- The `static mut MUTEX: Option<Mutex<()>>` guarded by `Once` (src/src/lib.rs
lines 39-50): whether it has been initialized, and how many times the
initializing closure has run. -/
structure OnceState : Type where
  mutexInit : Bool
  initCount : Nat
  deriving DecidableEq, Repr

/-- `INIT.call_once(...)`: runs the initializing closure only if it has never
run. -/
def onceCallInit (s : OnceState) : OnceState :=
  if s.mutexInit then s else ⟨true, s.initCount + 1⟩

/-- State of the `Once`-guarded static after `n` calls of
`set_global_codegen_config`, starting from process start. -/
def iterSetConfigInit : Nat → OnceState
  | 0 => ⟨false, 0⟩
  | n + 1 => onceCallInit (iterSetConfigInit n)

/-- The static is untouched before the first call and initialized exactly
once from then on. -/
theorem iterSetConfigInit_eq (n : Nat) :
    iterSetConfigInit n = if n = 0 then ⟨false, 0⟩ else ⟨true, 1⟩ := by
  induction n with
  | zero => rfl
  | succ k ih =>
      by_cases hk : k = 0 <;> simp [iterSetConfigInit, ih, hk, onceCallInit]

/-- C9, amended: the lazily-initialized global mutex serializes only
`set_global_codegen_config`: that function initializes the mutex exactly once
across any number of calls and holds the lock across all three configuration
writes, while `Module::optimize` reads the ambient configuration through
`BinaryenModuleOptimize` without ever acquiring the lock. -/
theorem codegen_lock_serializes_set_config_only :
    configAccessesUnderLock 0 set_global_codegen_config_trace = true ∧
      configAccessesUnderLock 0 optimize_trace = false ∧
      CGAction.lockAcquire ∉ optimize_trace ∧
      (∀ n : Nat, (iterSetConfigInit n).initCount = min n 1) := by
  refine ⟨by decide, by decide, by decide, ?_⟩
  intro n
  rw [iterSetConfigInit_eq]
  by_cases hn : n = 0 <;> simp [hn] <;> omega

/-- C9 counterexample: the claim — that the mutual-exclusion lock is acquired
for the whole duration of `Module::optimize` as well — is false: the body of
`optimize` performs its configuration-consuming FFI call at lock depth zero
and contains no lock acquisition at all. -/
theorem optimize_runs_without_lock_counterexample :
    configAccessesUnderLock 0 optimize_trace = false ∧
      CGAction.lockAcquire ∉ optimize_trace := by
  decide

/-! ### C2 — `Module::read` on malformed input -/

/-- A successfully decoded module (its encoded bytes). -/
structure DecodedModule : Type where
  bytes : List Nat
  deriving DecidableEq, Repr

/-- Outcome of `Module::read` (src/src/lib.rs lines 89-97).  The Rust
signature is `fn read(wasm_buf: &[u8]) -> Module`: there is no error value in
the return type at all, and the function's own doc comment states "This will
**abort** your program if `wasm_buf` is not correct."  Hence the only
outcomes are a module or a process abort — no recoverable error exists. -/
inductive ReadOutcome : Type
  | ok (m : DecodedModule)
  | abortProcess
  deriving DecidableEq, Repr

/-- The wasm binary magic and version: `\0asm` followed by version 1 —
a necessary prefix of every well-formed encoded module. -/
def wasmHeader : List Nat :=
  [0x00, 0x61, 0x73, 0x6d, 0x01, 0x00, 0x00, 0x00]

/-- The external decoder `BinaryenModuleRead`, modelled from the source's own
contract (its C++ implementation is not part of this repository): per the doc
comment of `Module::read`, it aborts the process on a buffer that is not a
correct module.  Malformedness is modelled by its decidable necessary
condition, a missing wasm header. -/
def BinaryenModuleRead (buf : List Nat) : ReadOutcome :=
  if buf.take 8 = wasmHeader then ReadOutcome.ok ⟨buf⟩ else ReadOutcome.abortProcess

/-- `Module::read` (src/src/lib.rs lines 89-97): passes the buffer straight
to the external decoder. -/
def Module.read (buf : List Nat) : ReadOutcome :=
  BinaryenModuleRead buf

/-- C2, amended: on malformed input (here: any buffer lacking the wasm
header), `Module::read` aborts the caller's process; no recoverable decode
error is returned — the signature offers no error channel at all. -/
theorem read_malformed_aborts (buf : List Nat) (h : buf.take 8 ≠ wasmHeader) :
    Module.read buf = ReadOutcome.abortProcess := by
  simp [Module.read, BinaryenModuleRead, h]

/-- Witness for the amended C2 theorem at a concrete malformed buffer. -/
theorem read_malformed_aborts_witness :
    Module.read [0xde, 0xad, 0xbe, 0xef] = ReadOutcome.abortProcess :=
  read_malformed_aborts [0xde, 0xad, 0xbe, 0xef] (by decide)

/-- C2 counterexample: the empty byte slice is not a well-formed encoded
module, and `Module::read` on it aborts the process rather than returning a
recoverable decode error — refuting the claim as stated. -/
theorem read_empty_aborts_counterexample :
    Module.read [] = ReadOutcome.abortProcess := by
  decide

/-! ### C10 — empty fuzz seed short-circuits to a fresh module -/

/-- A module as produced by the tools API: either a fresh empty module from
`Module::new()`, or the product of the external `translateToFuzz` call with
the given seed and feature flag. -/
inductive ModuleVal : Type
  | newEmpty
  | fromFfiTranslate (seed : List Nat) (allFeatures : Bool)
  deriving DecidableEq, Repr

/-- The value `Module::new()` produces. -/
def moduleNewVal : ModuleVal :=
  ModuleVal.newEmpty

/-- `translate_to_fuzz` (src/src/tools.rs lines 5-18): a zero-length seed
short-circuits to `Module::new()`; otherwise the external `translateToFuzz`
runs with `true`.  The Boolean in the result records whether the external
translator was invoked. -/
def translate_to_fuzz (seed : List Nat) : ModuleVal × Bool :=
  if seed.length = 0 then (moduleNewVal, false)
  else (ModuleVal.fromFfiTranslate seed true, true)

/-- `translate_to_fuzz_mvp` (src/src/tools.rs lines 21-34): same shape, with
`false` for the feature flag. -/
def translate_to_fuzz_mvp (seed : List Nat) : ModuleVal × Bool :=
  if seed.length = 0 then (moduleNewVal, false)
  else (ModuleVal.fromFfiTranslate seed false, true)

/-- C10: on the empty seed, both `translate_to_fuzz` and
`translate_to_fuzz_mvp` return exactly the fresh empty module of
`Module::new()` and do not invoke the external fuzz translator. -/
theorem translate_to_fuzz_empty_seed :
    translate_to_fuzz [] = (moduleNewVal, false) ∧
      translate_to_fuzz_mvp [] = (moduleNewVal, false) := by
  decide

end Binaryen
